import Mathlib

/-!
# Verification of `generate_project.py` (thepesz/dueasy)

A shallow embedding of the pbxproj generator script: MD5-based identifier
derivation (`generate_uuid`), Swift-file discovery (`get_swift_files`),
manifest assembly (`pbxproj_text`) and the output-write model, together with
theorems settling the specification claims.
-/

/-- 32-bit truncation, modelling Python/MD5 modular arithmetic. -/
def m32 (n : Nat) : Nat := n % 4294967296

/-- 32-bit left rotation used by the MD5 compression function. -/
def rotl32 (x s : Nat) : Nat := ((x <<< s) ||| (x >>> (32 - s))) % 4294967296

/-- 32-bit bitwise complement. -/
def not32 (x : Nat) : Nat := x ^^^ 4294967295

/-- The 64 MD5 sine-derived round constants. -/
def md5K : List Nat :=
  [0xd76aa478, 0xe8c7b756, 0x242070db, 0xc1bdceee,
   0xf57c0faf, 0x4787c62a, 0xa8304613, 0xfd469501,
   0x698098d8, 0x8b44f7af, 0xffff5bb1, 0x895cd7be,
   0x6b901122, 0xfd987193, 0xa679438e, 0x49b40821,
   0xf61e2562, 0xc040b340, 0x265e5a51, 0xe9b6c7aa,
   0xd62f105d, 0x02441453, 0xd8a1e681, 0xe7d3fbc8,
   0x21e1cde6, 0xc33707d6, 0xf4d50d87, 0x455a14ed,
   0xa9e3e905, 0xfcefa3f8, 0x676f02d9, 0x8d2a4c8a,
   0xfffa3942, 0x8771f681, 0x6d9d6122, 0xfde5380c,
   0xa4beea44, 0x4bdecfa9, 0xf6bb4b60, 0xbebfbc70,
   0x289b7ec6, 0xeaa127fa, 0xd4ef3085, 0x04881d05,
   0xd9d4d039, 0xe6db99e5, 0x1fa27cf8, 0xc4ac5665,
   0xf4292244, 0x432aff97, 0xab9423a7, 0xfc93a039,
   0x655b59c3, 0x8f0ccc92, 0xffeff47d, 0x85845dd1,
   0x6fa87e4f, 0xfe2ce6e0, 0xa3014314, 0x4e0811a1,
   0xf7537e82, 0xbd3af235, 0x2ad7d2bb, 0xeb86d391]

/-- The 64 MD5 per-round shift amounts. -/
def md5S : List Nat :=
  [7, 12, 17, 22, 7, 12, 17, 22, 7, 12, 17, 22, 7, 12, 17, 22,
   5, 9, 14, 20, 5, 9, 14, 20, 5, 9, 14, 20, 5, 9, 14, 20,
   4, 11, 16, 23, 4, 11, 16, 23, 4, 11, 16, 23, 4, 11, 16, 23,
   6, 10, 15, 21, 6, 10, 15, 21, 6, 10, 15, 21, 6, 10, 15, 21]

/-- Assemble a 32-bit word from four little-endian bytes. -/
def leWord (b0 b1 b2 b3 : Nat) : Nat := b0 + 256 * b1 + 65536 * b2 + 16777216 * b3

/-- Decode a 64-byte chunk into its sixteen little-endian 32-bit words. -/
def chunkWords (c : List Nat) : List Nat :=
  (List.range 16).map fun i =>
    leWord (c.getD (4 * i) 0) (c.getD (4 * i + 1) 0) (c.getD (4 * i + 2) 0) (c.getD (4 * i + 3) 0)

/-- One MD5 round: mixes round `i` into the state `(a, b, c, d)`. -/
def md5Round (M : List Nat) (st : Nat × Nat × Nat × Nat) (i : Nat) : Nat × Nat × Nat × Nat :=
  let a := st.1
  let b := st.2.1
  let c := st.2.2.1
  let d := st.2.2.2
  let f :=
    if i < 16 then (b &&& c) ||| (not32 b &&& d)
    else if i < 32 then (d &&& b) ||| (not32 d &&& c)
    else if i < 48 then b ^^^ c ^^^ d
    else c ^^^ (b ||| not32 d)
  let g :=
    if i < 16 then i
    else if i < 32 then (5 * i + 1) % 16
    else if i < 48 then (3 * i + 5) % 16
    else (7 * i) % 16
  let f2 := (f + a + md5K.getD i 0 + M.getD g 0) % 4294967296
  (d, (b + rotl32 f2 (md5S.getD i 0)) % 4294967296, b, c)

/-- Process one 64-byte chunk, updating the MD5 state. -/
def md5Chunk (h : Nat × Nat × Nat × Nat) (chunk : List Nat) : Nat × Nat × Nat × Nat :=
  let M := chunkWords chunk
  let r := (List.range 64).foldl (md5Round M) h
  (m32 (h.1 + r.1), m32 (h.2.1 + r.2.1), m32 (h.2.2.1 + r.2.2.1), m32 (h.2.2.2 + r.2.2.2))

/-- The eight little-endian bytes of the 64-bit message bit-length. -/
def lenLEBytes (n : Nat) : List Nat := (List.range 8).map fun i => (n / 256 ^ i) % 256

/-- MD5 padding: a `0x80` byte, zeros to 56 mod 64, then the bit length. -/
def md5Pad (msg : List Nat) : List Nat :=
  let padLen := (119 - (msg.length % 64)) % 64
  msg ++ [0x80] ++ List.replicate padLen 0 ++ lenLEBytes ((msg.length * 8) % 18446744073709551616)

/-- Split a byte list into 64-byte chunks. -/
def chunks64 (l : List Nat) : List (List Nat) :=
  if h : l = [] then [] else l.take 64 :: chunks64 (l.drop 64)
termination_by l.length
decreasing_by
  simp only [List.length_drop]
  have : 0 < l.length := List.length_pos.mpr h
  omega

/-- The four bytes of a 32-bit word in little-endian order. -/
def wordLEBytes (w : Nat) : List Nat :=
  [w % 256, (w / 256) % 256, (w / 65536) % 256, (w / 16777216) % 256]

/-- The 16-byte MD5 digest of the given message bytes. -/
def md5_digest (msg : List Nat) : List Nat :=
  let r := (chunks64 (md5Pad msg)).foldl md5Chunk (0x67452301, 0xefcdab89, 0x98badcfe, 0x10325476)
  wordLEBytes r.1 ++ wordLEBytes r.2.1 ++ wordLEBytes r.2.2.1 ++ wordLEBytes r.2.2.2

/-- The lowercase hexadecimal digit for `n < 16`, as `hexdigest()` formats
each nibble: digits `0`-`9` then letters `a`-`f`. -/
def hexChar (n : Nat) : Char :=
  if n < 10 then Char.ofNat (48 + n) else Char.ofNat (87 + n)

/-- The lowercase-hex character string of a digest, as `hexdigest()` yields. -/
def hexdigestChars (bytes : List Nat) : List Char :=
  bytes.flatMap fun b => [hexChar (b / 16), hexChar (b % 16)]

/-- UTF-8 encoding of a single character, as `str.encode()` produces. -/
def utf8Bytes (c : Char) : List Nat :=
  let n := c.toNat
  if n < 128 then [n]
  else if n < 2048 then [192 ||| (n >>> 6), 128 ||| (n &&& 63)]
  else if n < 65536 then
    [224 ||| (n >>> 12), 128 ||| ((n >>> 6) &&& 63), 128 ||| (n &&& 63)]
  else
    [240 ||| (n >>> 18), 128 ||| ((n >>> 12) &&& 63), 128 ||| ((n >>> 6) &&& 63),
     128 ||| (n &&& 63)]

/-- The UTF-8 bytes of a string (`name.encode()`). -/
def strBytes (s : String) : List Nat := s.data.flatMap utf8Bytes

/-- Embeds `generate_uuid` (src lines 10-13): the first 24 characters of the
MD5 hexdigest of the key, upper-cased. -/
def generate_uuid (name : String) : String :=
  ⟨((hexdigestChars (md5_digest (strBytes name))).take 24).map Char.toUpper⟩

/-! ## File discovery (`get_swift_files`, src lines 15-27)

The filesystem input is modelled as the sequence of `os.walk` entries in
enumeration order: each entry is the directory path `root` paired with the
plain files found in it. -/

/-- `s` ends with `post`, modelling Python's `file.endswith(".swift")` test
(src line 23). -/
def strEndsWith (s post : String) : Bool :=
  s.data.drop (s.data.length - post.data.length) == post.data

/-- `sub` occurs in `s` as a contiguous substring, modelling Python's
`sub in s` test on strings (src line 20). -/
def strContainsSub (sub s : String) : Bool :=
  (List.range (s.data.length + 1)).any fun i =>
    (s.data.drop i).take sub.data.length == sub.data

/-- Models `os.path.relpath(full_path, base_dir)` (src line 25) for full paths
strictly below `base`, as all walk roots are: drops the leading `base` and the
following separator. -/
def relpath (path base : String) : String := ⟨path.data.drop (base.data.length + 1)⟩

/-- The unsorted `(filename, rel_path)` pairs collected by the walk loop of
`get_swift_files` (src lines 17-26): a directory whose path contains
`"Preview Content"` is skipped, and every `.swift` file of any other
directory contributes one pair. -/
def collectSwiftPairs (base : String) (walk : List (String × List String)) :
    List (String × String) :=
  walk.flatMap fun e =>
    if strContainsSub "Preview Content" e.1 then []
    else (e.2.filter fun f => strEndsWith f ".swift").map fun f =>
      (f, relpath (e.1 ++ "/" ++ f) base)

/-- The comparison done by `sorted(swift_files, key=lambda x: x[1])`
(src line 27): ordering on the relative path component. -/
def pathLE (a b : String × String) : Prop := a.2 ≤ b.2

instance : DecidableRel pathLE := fun a b => String.decidableLE a.2 b.2

/-- Embeds `get_swift_files` (src lines 15-27): the collected pairs sorted by
relative path. Python's `sorted` is a stable sort, modelled here by stable
insertion sort. -/
def get_swift_files (base : String) (walk : List (String × List String)) :
    List (String × String) :=
  (collectSwiftPairs base walk).insertionSort pathLE

/-- Embeds the discovery call including its error behavior (src lines 18, 31):
`tree = none` models a missing base or `DuEasy` subdirectory, on which
`os.walk` yields no entries and raises no exception (its `onerror` argument
defaults to `None`), so the function returns normally. -/
def get_swift_files_run (base : String) (tree : Option (List (String × List String))) :
    Except String (List (String × String)) :=
  Except.ok (get_swift_files base (tree.getD []))

/-- The hardcoded base directory (src line 30). -/
def base_dir : String := "/Users/bart/Documents/DuEasy"

/-! ## Per-file identifier derivation and manifest records (src lines 34-41) -/

/-- A dynamic file-reference entry: `(file_ref_id, filename, rel_path)`
(src line 40). -/
structure FileRef where
  ref_id : String
  filename : String
  rel_path : String
deriving DecidableEq

/-- A dynamic build-file entry: `(build_file_id, file_ref_id, filename)`
(src line 41). -/
structure BuildFile where
  build_id : String
  file_ref_id : String
  filename : String
deriving DecidableEq

/-- The `file_refs` list built by the loop of src lines 37-40. -/
def mkFileRefs (fs : List (String × String)) : List FileRef :=
  fs.map fun p => ⟨generate_uuid ("fileref_" ++ p.2), p.1, p.2⟩

/-- The `build_files` list built by the loop of src lines 37-41. -/
def mkBuildFiles (fs : List (String × String)) : List BuildFile :=
  fs.map fun p => ⟨generate_uuid ("buildfile_" ++ p.2), generate_uuid ("fileref_" ++ p.2), p.1⟩

/-! ## Fixed structural identifiers (src lines 44-77) -/

/-- Fixed project-object identifier (src line 44). -/
def project_id : String := "E1000012282F0012"

/-- Fixed main-group identifier (src line 45). -/
def main_group_id : String := "E100000A282F000A"

/-- Fixed Products-group identifier (src line 46). -/
def products_group_id : String := "E100000C282F000C"

/-- Fixed DuEasy-group identifier (src line 47). -/
def dueasy_group_id : String := "E100000B282F000B"

/-- Fixed app-product identifier (src line 48). -/
def app_id : String := "E1000007282F0007"

/-- Fixed native-target identifier (src line 49). -/
def target_id : String := "E100000E282F000E"

/-- Fixed asset-catalog file-reference identifier (src line 52). -/
def assets_ref_id : String := "E1000004282F0004"

/-- Fixed asset-catalog build-file identifier (src line 53). -/
def assets_build_id : String := "E1000003282F0003"

/-- Fixed preview-assets file-reference identifier (src line 54). -/
def preview_assets_ref_id : String := "E1000006282F0006"

/-- Fixed preview-assets build-file identifier (src line 55). -/
def preview_assets_build_id : String := "E1000005282F0005"

/-- Fixed Info.plist file-reference identifier (src line 56). -/
def info_plist_ref_id : String := "E1000008282F0008"

/-- Fixed Preview Content group identifier (src line 57). -/
def preview_content_group_id : String := "E100000D282F000D"

/-- Fixed Resources group identifier (src line 60). -/
def resources_group_id : String := "E100001A282F001A"

/-- Fixed localization variant-group identifier (src line 61). -/
def localizable_variant_group_id : String := "E100001B282F001B"

/-- Fixed English strings file-reference identifier (src line 62). -/
def localizable_en_ref_id : String := "E100001C282F001C"

/-- Fixed Polish strings file-reference identifier (src line 63). -/
def localizable_pl_ref_id : String := "E100001D282F001D"

/-- Fixed localization build-file identifier (src line 64). -/
def localizable_build_id : String := "E100001E282F001E"

/-- Fixed project debug-configuration identifier (src line 67). -/
def project_debug_config : String := "E1000014282F0014"

/-- Fixed project release-configuration identifier (src line 68). -/
def project_release_config : String := "E1000015282F0015"

/-- Fixed target debug-configuration identifier (src line 69). -/
def target_debug_config : String := "E1000016282F0016"

/-- Fixed target release-configuration identifier (src line 70). -/
def target_release_config : String := "E1000017282F0017"

/-- Fixed project configuration-list identifier (src line 71). -/
def project_config_list : String := "E1000013282F0013"

/-- Fixed target configuration-list identifier (src line 72). -/
def target_config_list : String := "E100000F282F000F"

/-- Fixed sources-phase identifier (src line 75). -/
def sources_phase_id : String := "E1000010282F0010"

/-- Fixed frameworks-phase identifier (src line 76). -/
def frameworks_phase_id : String := "E1000009282F0009"

/-- Fixed resources-phase identifier (src line 77). -/
def resources_phase_id : String := "E1000011282F0011"

/-- Manifest header and the opening of the build-file section (src lines 80-89). -/
def pbxproj_header : String :=
  "// !$*UTF8*$!\n" ++
  "\x7b\n" ++
  "\tarchiveVersion = 1;\n" ++
  "\tclasses = \x7b\n" ++
  "\t\x7d;\n" ++
  "\tobjectVersion = 56;\n" ++
  "\tobjects = \x7b\n" ++
  "\n" ++
  "/* Begin PBXBuildFile section */\n"

/-- The three fixed resource build-file entries (src lines 96-98). -/
def resource_build_file_lines : String :=
  "\t\t" ++ assets_build_id ++ " /* Assets.xcassets in Resources */ = \x7bisa = PBXBuildFile; fileRef = " ++ assets_ref_id ++ " /* Assets.xcassets */; \x7d;\n" ++
  "\t\t" ++ preview_assets_build_id ++ " /* Preview Assets.xcassets in Resources */ = \x7bisa = PBXBuildFile; fileRef = " ++ preview_assets_ref_id ++ " /* Preview Assets.xcassets */; \x7d;\n" ++
  "\t\t" ++ localizable_build_id ++ " /* Localizable.strings in Resources */ = \x7bisa = PBXBuildFile; fileRef = " ++ localizable_variant_group_id ++ " /* Localizable.strings */; \x7d;\n"

/-- Section break between build files and file references (src lines 100-103). -/
def end_buildfile_begin_fileref : String :=
  "/* End PBXBuildFile section */\n" ++
  "\n" ++
  "/* Begin PBXFileReference section */\n"

/-- The six fixed file-reference entries (src lines 110-115). -/
def static_file_ref_lines : String :=
  "\t\t" ++ app_id ++ " /* DuEasy.app */ = \x7bisa = PBXFileReference; explicitFileType = wrapper.application; includeInIndex = 0; path = DuEasy.app; sourceTree = BUILT_PRODUCTS_DIR; \x7d;\n" ++
  "\t\t" ++ assets_ref_id ++ " /* Assets.xcassets */ = \x7bisa = PBXFileReference; lastKnownFileType = folder.assetcatalog; path = Assets.xcassets; sourceTree = \"<group>\"; \x7d;\n" ++
  "\t\t" ++ preview_assets_ref_id ++ " /* Preview Assets.xcassets */ = \x7bisa = PBXFileReference; lastKnownFileType = folder.assetcatalog; path = \"Preview Assets.xcassets\"; sourceTree = \"<group>\"; \x7d;\n" ++
  "\t\t" ++ info_plist_ref_id ++ " /* Info.plist */ = \x7bisa = PBXFileReference; lastKnownFileType = text.plist.xml; path = Info.plist; sourceTree = \"<group>\"; \x7d;\n" ++
  "\t\t" ++ localizable_en_ref_id ++ " /* en */ = \x7bisa = PBXFileReference; lastKnownFileType = text.plist.strings; name = en; path = en.lproj/Localizable.strings; sourceTree = \"<group>\"; \x7d;\n" ++
  "\t\t" ++ localizable_pl_ref_id ++ " /* pl */ = \x7bisa = PBXFileReference; lastKnownFileType = text.plist.strings; name = pl; path = pl.lproj/Localizable.strings; sourceTree = \"<group>\"; \x7d;\n"

/-- Section break between file references and the frameworks phase (src lines 117-120). -/
def end_fileref_begin_frameworks : String :=
  "/* End PBXFileReference section */\n" ++
  "\n" ++
  "/* Begin PBXFrameworksBuildPhase section */\n"

/-- Frameworks phase, main/products groups and the head of the DuEasy group (src lines 121-150). -/
def frameworks_and_groups_text : String :=
  "\t\t" ++ frameworks_phase_id ++ " /* Frameworks */ = \x7b\n" ++
  "\t\t\tisa = PBXFrameworksBuildPhase;\n" ++
  "\t\t\tbuildActionMask = 2147483647;\n" ++
  "\t\t\tfiles = (\n" ++
  "\t\t\t);\n" ++
  "\t\t\trunOnlyForDeploymentPostprocessing = 0;\n" ++
  "\t\t\x7d;\n" ++
  "/* End PBXFrameworksBuildPhase section */\n" ++
  "\n" ++
  "/* Begin PBXGroup section */\n" ++
  "\t\t" ++ main_group_id ++ " = \x7b\n" ++
  "\t\t\tisa = PBXGroup;\n" ++
  "\t\t\tchildren = (\n" ++
  "\t\t\t\t" ++ dueasy_group_id ++ " /* DuEasy */,\n" ++
  "\t\t\t\t" ++ products_group_id ++ " /* Products */,\n" ++
  "\t\t\t);\n" ++
  "\t\t\tsourceTree = \"<group>\";\n" ++
  "\t\t\x7d;\n" ++
  "\t\t" ++ products_group_id ++ " /* Products */ = \x7b\n" ++
  "\t\t\tisa = PBXGroup;\n" ++
  "\t\t\tchildren = (\n" ++
  "\t\t\t\t" ++ app_id ++ " /* DuEasy.app */,\n" ++
  "\t\t\t);\n" ++
  "\t\t\tname = Products;\n" ++
  "\t\t\tsourceTree = \"<group>\";\n" ++
  "\t\t\x7d;\n" ++
  "\t\t" ++ dueasy_group_id ++ " /* DuEasy */ = \x7b\n" ++
  "\t\t\tisa = PBXGroup;\n" ++
  "\t\t\tchildren = (\n"

/-- Fixed group children, Resources and Preview Content groups, variant group, native target, project object, resources phase, and the head of the sources phase (src lines 156-264). -/
def group_tail_to_sources_head : String :=
  "\t\t\t\t" ++ info_plist_ref_id ++ " /* Info.plist */,\n" ++
  "\t\t\t\t" ++ assets_ref_id ++ " /* Assets.xcassets */,\n" ++
  "\t\t\t\t" ++ resources_group_id ++ " /* Resources */,\n" ++
  "\t\t\t\t" ++ preview_content_group_id ++ " /* Preview Content */,\n" ++
  "\t\t\t);\n" ++
  "\t\t\tpath = DuEasy;\n" ++
  "\t\t\tsourceTree = \"<group>\";\n" ++
  "\t\t\x7d;\n" ++
  "\t\t" ++ resources_group_id ++ " /* Resources */ = \x7b\n" ++
  "\t\t\tisa = PBXGroup;\n" ++
  "\t\t\tchildren = (\n" ++
  "\t\t\t\t" ++ localizable_variant_group_id ++ " /* Localizable.strings */,\n" ++
  "\t\t\t);\n" ++
  "\t\t\tpath = Resources;\n" ++
  "\t\t\tsourceTree = \"<group>\";\n" ++
  "\t\t\x7d;\n" ++
  "\t\t" ++ preview_content_group_id ++ " /* Preview Content */ = \x7b\n" ++
  "\t\t\tisa = PBXGroup;\n" ++
  "\t\t\tchildren = (\n" ++
  "\t\t\t\t" ++ preview_assets_ref_id ++ " /* Preview Assets.xcassets */,\n" ++
  "\t\t\t);\n" ++
  "\t\t\tpath = \"Preview Content\";\n" ++
  "\t\t\tsourceTree = \"<group>\";\n" ++
  "\t\t\x7d;\n" ++
  "/* End PBXGroup section */\n" ++
  "\n" ++
  "/* Begin PBXVariantGroup section */\n" ++
  "\t\t" ++ localizable_variant_group_id ++ " /* Localizable.strings */ = \x7b\n" ++
  "\t\t\tisa = PBXVariantGroup;\n" ++
  "\t\t\tchildren = (\n" ++
  "\t\t\t\t" ++ localizable_en_ref_id ++ " /* en */,\n" ++
  "\t\t\t\t" ++ localizable_pl_ref_id ++ " /* pl */,\n" ++
  "\t\t\t);\n" ++
  "\t\t\tname = Localizable.strings;\n" ++
  "\t\t\tsourceTree = \"<group>\";\n" ++
  "\t\t\x7d;\n" ++
  "/* End PBXVariantGroup section */\n" ++
  "\n" ++
  "/* Begin PBXNativeTarget section */\n" ++
  "\t\t" ++ target_id ++ " /* DuEasy */ = \x7b\n" ++
  "\t\t\tisa = PBXNativeTarget;\n" ++
  "\t\t\tbuildConfigurationList = " ++ target_config_list ++ " /* Build configuration list for PBXNativeTarget \"DuEasy\" */;\n" ++
  "\t\t\tbuildPhases = (\n" ++
  "\t\t\t\t" ++ sources_phase_id ++ " /* Sources */,\n" ++
  "\t\t\t\t" ++ frameworks_phase_id ++ " /* Frameworks */,\n" ++
  "\t\t\t\t" ++ resources_phase_id ++ " /* Resources */,\n" ++
  "\t\t\t);\n" ++
  "\t\t\tbuildRules = (\n" ++
  "\t\t\t);\n" ++
  "\t\t\tdependencies = (\n" ++
  "\t\t\t);\n" ++
  "\t\t\tname = DuEasy;\n" ++
  "\t\t\tproductName = DuEasy;\n" ++
  "\t\t\tproductReference = " ++ app_id ++ " /* DuEasy.app */;\n" ++
  "\t\t\tproductType = \"com.apple.product-type.application\";\n" ++
  "\t\t\x7d;\n" ++
  "/* End PBXNativeTarget section */\n" ++
  "\n" ++
  "/* Begin PBXProject section */\n" ++
  "\t\t" ++ project_id ++ " /* Project object */ = \x7b\n" ++
  "\t\t\tisa = PBXProject;\n" ++
  "\t\t\tattributes = \x7b\n" ++
  "\t\t\t\tBuildIndependentTargetsInParallel = 1;\n" ++
  "\t\t\t\tLastSwiftUpdateCheck = 1500;\n" ++
  "\t\t\t\tLastUpgradeCheck = 1500;\n" ++
  "\t\t\t\tTargetAttributes = \x7b\n" ++
  "\t\t\t\t\t" ++ target_id ++ " = \x7b\n" ++
  "\t\t\t\t\t\tCreatedOnToolsVersion = 15.0;\n" ++
  "\t\t\t\t\t\x7d;\n" ++
  "\t\t\t\t\x7d;\n" ++
  "\t\t\t\x7d;\n" ++
  "\t\t\tbuildConfigurationList = " ++ project_config_list ++ " /* Build configuration list for PBXProject \"DuEasy\" */;\n" ++
  "\t\t\tcompatibilityVersion = \"Xcode 14.0\";\n" ++
  "\t\t\tdevelopmentRegion = en;\n" ++
  "\t\t\thasScannedForEncodings = 0;\n" ++
  "\t\t\tknownRegions = (\n" ++
  "\t\t\t\ten,\n" ++
  "\t\t\t\tBase,\n" ++
  "\t\t\t\tpl,\n" ++
  "\t\t\t);\n" ++
  "\t\t\tmainGroup = " ++ main_group_id ++ ";\n" ++
  "\t\t\tproductRefGroup = " ++ products_group_id ++ " /* Products */;\n" ++
  "\t\t\tprojectDirPath = \"\";\n" ++
  "\t\t\tprojectRoot = \"\";\n" ++
  "\t\t\ttargets = (\n" ++
  "\t\t\t\t" ++ target_id ++ " /* DuEasy */,\n" ++
  "\t\t\t);\n" ++
  "\t\t\x7d;\n" ++
  "/* End PBXProject section */\n" ++
  "\n" ++
  "/* Begin PBXResourcesBuildPhase section */\n" ++
  "\t\t" ++ resources_phase_id ++ " /* Resources */ = \x7b\n" ++
  "\t\t\tisa = PBXResourcesBuildPhase;\n" ++
  "\t\t\tbuildActionMask = 2147483647;\n" ++
  "\t\t\tfiles = (\n" ++
  "\t\t\t\t" ++ preview_assets_build_id ++ " /* Preview Assets.xcassets in Resources */,\n" ++
  "\t\t\t\t" ++ assets_build_id ++ " /* Assets.xcassets in Resources */,\n" ++
  "\t\t\t\t" ++ localizable_build_id ++ " /* Localizable.strings in Resources */,\n" ++
  "\t\t\t);\n" ++
  "\t\t\trunOnlyForDeploymentPostprocessing = 0;\n" ++
  "\t\t\x7d;\n" ++
  "/* End PBXResourcesBuildPhase section */\n" ++
  "\n" ++
  "/* Begin PBXSourcesBuildPhase section */\n" ++
  "\t\t" ++ sources_phase_id ++ " /* Sources */ = \x7b\n" ++
  "\t\t\tisa = PBXSourcesBuildPhase;\n" ++
  "\t\t\tbuildActionMask = 2147483647;\n" ++
  "\t\t\tfiles = (\n"

/-- Tail of the sources phase, debug/release configuration blocks, configuration lists and the manifest footer (src lines 270-486). -/
def sources_tail_to_footer : String :=
  "\t\t\t);\n" ++
  "\t\t\trunOnlyForDeploymentPostprocessing = 0;\n" ++
  "\t\t\x7d;\n" ++
  "/* End PBXSourcesBuildPhase section */\n" ++
  "\n" ++
  "/* Begin XCBuildConfiguration section */\n" ++
  "\t\t" ++ project_debug_config ++ " /* Debug */ = \x7b\n" ++
  "\t\t\tisa = XCBuildConfiguration;\n" ++
  "\t\t\tbuildSettings = \x7b\n" ++
  "\t\t\t\tALWAYS_SEARCH_USER_PATHS = NO;\n" ++
  "\t\t\t\tASETCATALOG_COMPILER_GENERATE_SWIFT_ASSET_SYMBOL_EXTENSIONS = YES;\n" ++
  "\t\t\t\tCLANG_ANALYZER_NONNULL = YES;\n" ++
  "\t\t\t\tCLANG_ANALYZER_NUMBER_OBJECT_CONVERSION = YES_AGGRESSIVE;\n" ++
  "\t\t\t\tCLANG_CXX_LANGUAGE_STANDARD = \"gnu++20\";\n" ++
  "\t\t\t\tCLANG_ENABLE_MODULES = YES;\n" ++
  "\t\t\t\tCLANG_ENABLE_OBJC_ARC = YES;\n" ++
  "\t\t\t\tCLANG_ENABLE_OBJC_WEAK = YES;\n" ++
  "\t\t\t\tCLANG_WARN_BLOCK_CAPTURE_AUTORELEASING = YES;\n" ++
  "\t\t\t\tCLANG_WARN_BOOL_CONVERSION = YES;\n" ++
  "\t\t\t\tCLANG_WARN_COMMA = YES;\n" ++
  "\t\t\t\tCLANG_WARN_CONSTANT_CONVERSION = YES;\n" ++
  "\t\t\t\tCLANG_WARN_DEPRECATED_OBJC_IMPLEMENTATIONS = YES;\n" ++
  "\t\t\t\tCLANG_WARN_DIRECT_OBJC_ISA_USAGE = YES_ERROR;\n" ++
  "\t\t\t\tCLANG_WARN_DOCUMENTATION_COMMENTS = YES;\n" ++
  "\t\t\t\tCLANG_WARN_EMPTY_BODY = YES;\n" ++
  "\t\t\t\tCLANG_WARN_ENUM_CONVERSION = YES;\n" ++
  "\t\t\t\tCLANG_WARN_INFINITE_RECURSION = YES;\n" ++
  "\t\t\t\tCLANG_WARN_INT_CONVERSION = YES;\n" ++
  "\t\t\t\tCLANG_WARN_NON_LITERAL_NULL_CONVERSION = YES;\n" ++
  "\t\t\t\tCLANG_WARN_OBJC_IMPLICIT_RETAIN_SELF = YES;\n" ++
  "\t\t\t\tCLANG_WARN_OBJC_LITERAL_CONVERSION = YES;\n" ++
  "\t\t\t\tCLANG_WARN_OBJC_ROOT_CLASS = YES_ERROR;\n" ++
  "\t\t\t\tCLANG_WARN_QUOTED_INCLUDE_IN_FRAMEWORK_HEADER = YES;\n" ++
  "\t\t\t\tCLANG_WARN_RANGE_LOOP_ANALYSIS = YES;\n" ++
  "\t\t\t\tCLANG_WARN_STRICT_PROTOTYPES = YES;\n" ++
  "\t\t\t\tCLANG_WARN_SUSPICIOUS_MOVE = YES;\n" ++
  "\t\t\t\tCLANG_WARN_UNGUARDED_AVAILABILITY = YES_AGGRESSIVE;\n" ++
  "\t\t\t\tCLANG_WARN_UNREACHABLE_CODE = YES;\n" ++
  "\t\t\t\tCLANG_WARN__DUPLICATE_METHOD_MATCH = YES;\n" ++
  "\t\t\t\tCOPY_PHASE_STRIP = NO;\n" ++
  "\t\t\t\tDEBUG_INFORMATION_FORMAT = dwarf;\n" ++
  "\t\t\t\tENABLE_STRICT_OBJC_MSGSEND = YES;\n" ++
  "\t\t\t\tENABLE_TESTABILITY = YES;\n" ++
  "\t\t\t\tENABLE_USER_SCRIPT_SANDBOXING = YES;\n" ++
  "\t\t\t\tGCC_C_LANGUAGE_STANDARD = gnu17;\n" ++
  "\t\t\t\tGCC_DYNAMIC_NO_PIC = NO;\n" ++
  "\t\t\t\tGCC_NO_COMMON_BLOCKS = YES;\n" ++
  "\t\t\t\tGCC_OPTIMIZATION_LEVEL = 0;\n" ++
  "\t\t\t\tGCC_PREPROCESSOR_DEFINITIONS = (\n" ++
  "\t\t\t\t\t\"DEBUG=1\",\n" ++
  "\t\t\t\t\t\"$(inherited)\",\n" ++
  "\t\t\t\t);\n" ++
  "\t\t\t\tGCC_WARN_64_TO_32_BIT_CONVERSION = YES;\n" ++
  "\t\t\t\tGCC_WARN_ABOUT_RETURN_TYPE = YES_ERROR;\n" ++
  "\t\t\t\tGCC_WARN_UNDECLARED_SELECTOR = YES;\n" ++
  "\t\t\t\tGCC_WARN_UNINITIALIZED_AUTOS = YES_AGGRESSIVE;\n" ++
  "\t\t\t\tGCC_WARN_UNUSED_FUNCTION = YES;\n" ++
  "\t\t\t\tGCC_WARN_UNUSED_VARIABLE = YES;\n" ++
  "\t\t\t\tIPHONEOS_DEPLOYMENT_TARGET = 17.0;\n" ++
  "\t\t\t\tLOCALIZATION_PREFERS_STRING_CATALOGS = YES;\n" ++
  "\t\t\t\tMTL_ENABLE_DEBUG_INFO = INCLUDE_SOURCE;\n" ++
  "\t\t\t\tMTL_FAST_MATH = YES;\n" ++
  "\t\t\t\tONLY_ACTIVE_ARCH = YES;\n" ++
  "\t\t\t\tSDKROOT = iphoneos;\n" ++
  "\t\t\t\tSWIFT_ACTIVE_COMPILATION_CONDITIONS = \"DEBUG $(inherited)\";\n" ++
  "\t\t\t\tSWIFT_OPTIMIZATION_LEVEL = \"-Onone\";\n" ++
  "\t\t\t\x7d;\n" ++
  "\t\t\tname = Debug;\n" ++
  "\t\t\x7d;\n" ++
  "\t\t" ++ project_release_config ++ " /* Release */ = \x7b\n" ++
  "\t\t\tisa = XCBuildConfiguration;\n" ++
  "\t\t\tbuildSettings = \x7b\n" ++
  "\t\t\t\tALWAYS_SEARCH_USER_PATHS = NO;\n" ++
  "\t\t\t\tASETCATALOG_COMPILER_GENERATE_SWIFT_ASSET_SYMBOL_EXTENSIONS = YES;\n" ++
  "\t\t\t\tCLANG_ANALYZER_NONNULL = YES;\n" ++
  "\t\t\t\tCLANG_ANALYZER_NUMBER_OBJECT_CONVERSION = YES_AGGRESSIVE;\n" ++
  "\t\t\t\tCLANG_CXX_LANGUAGE_STANDARD = \"gnu++20\";\n" ++
  "\t\t\t\tCLANG_ENABLE_MODULES = YES;\n" ++
  "\t\t\t\tCLANG_ENABLE_OBJC_ARC = YES;\n" ++
  "\t\t\t\tCLANG_ENABLE_OBJC_WEAK = YES;\n" ++
  "\t\t\t\tCLANG_WARN_BLOCK_CAPTURE_AUTORELEASING = YES;\n" ++
  "\t\t\t\tCLANG_WARN_BOOL_CONVERSION = YES;\n" ++
  "\t\t\t\tCLANG_WARN_COMMA = YES;\n" ++
  "\t\t\t\tCLANG_WARN_CONSTANT_CONVERSION = YES;\n" ++
  "\t\t\t\tCLANG_WARN_DEPRECATED_OBJC_IMPLEMENTATIONS = YES;\n" ++
  "\t\t\t\tCLANG_WARN_DIRECT_OBJC_ISA_USAGE = YES_ERROR;\n" ++
  "\t\t\t\tCLANG_WARN_DOCUMENTATION_COMMENTS = YES;\n" ++
  "\t\t\t\tCLANG_WARN_EMPTY_BODY = YES;\n" ++
  "\t\t\t\tCLANG_WARN_ENUM_CONVERSION = YES;\n" ++
  "\t\t\t\tCLANG_WARN_INFINITE_RECURSION = YES;\n" ++
  "\t\t\t\tCLANG_WARN_INT_CONVERSION = YES;\n" ++
  "\t\t\t\tCLANG_WARN_NON_LITERAL_NULL_CONVERSION = YES;\n" ++
  "\t\t\t\tCLANG_WARN_OBJC_IMPLICIT_RETAIN_SELF = YES;\n" ++
  "\t\t\t\tCLANG_WARN_OBJC_LITERAL_CONVERSION = YES;\n" ++
  "\t\t\t\tCLANG_WARN_OBJC_ROOT_CLASS = YES_ERROR;\n" ++
  "\t\t\t\tCLANG_WARN_QUOTED_INCLUDE_IN_FRAMEWORK_HEADER = YES;\n" ++
  "\t\t\t\tCLANG_WARN_RANGE_LOOP_ANALYSIS = YES;\n" ++
  "\t\t\t\tCLANG_WARN_STRICT_PROTOTYPES = YES;\n" ++
  "\t\t\t\tCLANG_WARN_SUSPICIOUS_MOVE = YES;\n" ++
  "\t\t\t\tCLANG_WARN_UNGUARDED_AVAILABILITY = YES_AGGRESSIVE;\n" ++
  "\t\t\t\tCLANG_WARN_UNREACHABLE_CODE = YES;\n" ++
  "\t\t\t\tCLANG_WARN__DUPLICATE_METHOD_MATCH = YES;\n" ++
  "\t\t\t\tCOPY_PHASE_STRIP = NO;\n" ++
  "\t\t\t\tDEBUG_INFORMATION_FORMAT = \"dwarf-with-dsym\";\n" ++
  "\t\t\t\tENABLE_NS_ASSERTIONS = NO;\n" ++
  "\t\t\t\tENABLE_STRICT_OBJC_MSGSEND = YES;\n" ++
  "\t\t\t\tENABLE_USER_SCRIPT_SANDBOXING = YES;\n" ++
  "\t\t\t\tGCC_C_LANGUAGE_STANDARD = gnu17;\n" ++
  "\t\t\t\tGCC_NO_COMMON_BLOCKS = YES;\n" ++
  "\t\t\t\tGCC_WARN_64_TO_32_BIT_CONVERSION = YES;\n" ++
  "\t\t\t\tGCC_WARN_ABOUT_RETURN_TYPE = YES_ERROR;\n" ++
  "\t\t\t\tGCC_WARN_UNDECLARED_SELECTOR = YES;\n" ++
  "\t\t\t\tGCC_WARN_UNINITIALIZED_AUTOS = YES_AGGRESSIVE;\n" ++
  "\t\t\t\tGCC_WARN_UNUSED_FUNCTION = YES;\n" ++
  "\t\t\t\tGCC_WARN_UNUSED_VARIABLE = YES;\n" ++
  "\t\t\t\tIPHONEOS_DEPLOYMENT_TARGET = 17.0;\n" ++
  "\t\t\t\tLOCALIZATION_PREFERS_STRING_CATALOGS = YES;\n" ++
  "\t\t\t\tMTL_ENABLE_DEBUG_INFO = NO;\n" ++
  "\t\t\t\tMTL_FAST_MATH = YES;\n" ++
  "\t\t\t\tSDKROOT = iphoneos;\n" ++
  "\t\t\t\tSWIFT_COMPILATION_MODE = wholemodule;\n" ++
  "\t\t\t\tVALIDATE_PRODUCT = YES;\n" ++
  "\t\t\t\x7d;\n" ++
  "\t\t\tname = Release;\n" ++
  "\t\t\x7d;\n" ++
  "\t\t" ++ target_debug_config ++ " /* Debug */ = \x7b\n" ++
  "\t\t\tisa = XCBuildConfiguration;\n" ++
  "\t\t\tbuildSettings = \x7b\n" ++
  "\t\t\t\tASETCATALOG_COMPILER_APPICON_NAME = AppIcon;\n" ++
  "\t\t\t\tASETCATALOG_COMPILER_GLOBAL_ACCENT_COLOR_NAME = AccentColor;\n" ++
  "\t\t\t\tCODE_SIGN_STYLE = Automatic;\n" ++
  "\t\t\t\tCURRENT_PROJECT_VERSION = 1;\n" ++
  "\t\t\t\tDEVELOPMENT_ASSET_PATHS = \"\\\"DuEasy/Preview Content\\\"\";\n" ++
  "\t\t\t\tENABLE_PREVIEWS = YES;\n" ++
  "\t\t\t\tGENERATE_INFOPLIST_FILE = YES;\n" ++
  "\t\t\t\tINFOPLIST_FILE = DuEasy/Info.plist;\n" ++
  "\t\t\t\tINFOPLIST_KEY_CFBundleDisplayName = DuEasy;\n" ++
  "\t\t\t\tINFOPLIST_KEY_LSApplicationCategoryType = \"public.app-category.productivity\";\n" ++
  "\t\t\t\tINFOPLIST_KEY_NSCameraUsageDescription = \"DuEasy uses your camera to scan documents like invoices and receipts.\";\n" ++
  "\t\t\t\tINFOPLIST_KEY_NSCalendarsUsageDescription = \"DuEasy adds payment due dates to your calendar so you never miss a deadline.\";\n" ++
  "\t\t\t\tINFOPLIST_KEY_UIApplicationSceneManifest_Generation = YES;\n" ++
  "\t\t\t\tINFOPLIST_KEY_UIApplicationSupportsIndirectInputEvents = YES;\n" ++
  "\t\t\t\tINFOPLIST_KEY_UILaunchScreen_Generation = YES;\n" ++
  "\t\t\t\tINFOPLIST_KEY_UISupportedInterfaceOrientations_iPad = \"UIInterfaceOrientationPortrait UIInterfaceOrientationPortraitUpsideDown UIInterfaceOrientationLandscapeLeft UIInterfaceOrientationLandscapeRight\";\n" ++
  "\t\t\t\tINFOPLIST_KEY_UISupportedInterfaceOrientations_iPhone = \"UIInterfaceOrientationPortrait UIInterfaceOrientationLandscapeLeft UIInterfaceOrientationLandscapeRight\";\n" ++
  "\t\t\t\tLD_RUNPATH_SEARCH_PATHS = (\n" ++
  "\t\t\t\t\t\"$(inherited)\",\n" ++
  "\t\t\t\t\t\"@executable_path/Frameworks\",\n" ++
  "\t\t\t\t);\n" ++
  "\t\t\t\tMARKETING_VERSION = 1.0;\n" ++
  "\t\t\t\tPRODUCT_BUNDLE_IDENTIFIER = com.dueasy.app;\n" ++
  "\t\t\t\tPRODUCT_NAME = \"$(TARGET_NAME)\";\n" ++
  "\t\t\t\tSWIFT_EMIT_LOC_STRINGS = YES;\n" ++
  "\t\t\t\tSWIFT_VERSION = 5.0;\n" ++
  "\t\t\t\tTARGETED_DEVICE_FAMILY = \"1,2\";\n" ++
  "\t\t\t\x7d;\n" ++
  "\t\t\tname = Debug;\n" ++
  "\t\t\x7d;\n" ++
  "\t\t" ++ target_release_config ++ " /* Release */ = \x7b\n" ++
  "\t\t\tisa = XCBuildConfiguration;\n" ++
  "\t\t\tbuildSettings = \x7b\n" ++
  "\t\t\t\tASETCATALOG_COMPILER_APPICON_NAME = AppIcon;\n" ++
  "\t\t\t\tASETCATALOG_COMPILER_GLOBAL_ACCENT_COLOR_NAME = AccentColor;\n" ++
  "\t\t\t\tCODE_SIGN_STYLE = Automatic;\n" ++
  "\t\t\t\tCURRENT_PROJECT_VERSION = 1;\n" ++
  "\t\t\t\tDEVELOPMENT_ASSET_PATHS = \"\\\"DuEasy/Preview Content\\\"\";\n" ++
  "\t\t\t\tENABLE_PREVIEWS = YES;\n" ++
  "\t\t\t\tGENERATE_INFOPLIST_FILE = YES;\n" ++
  "\t\t\t\tINFOPLIST_FILE = DuEasy/Info.plist;\n" ++
  "\t\t\t\tINFOPLIST_KEY_CFBundleDisplayName = DuEasy;\n" ++
  "\t\t\t\tINFOPLIST_KEY_LSApplicationCategoryType = \"public.app-category.productivity\";\n" ++
  "\t\t\t\tINFOPLIST_KEY_NSCameraUsageDescription = \"DuEasy uses your camera to scan documents like invoices and receipts.\";\n" ++
  "\t\t\t\tINFOPLIST_KEY_NSCalendarsUsageDescription = \"DuEasy adds payment due dates to your calendar so you never miss a deadline.\";\n" ++
  "\t\t\t\tINFOPLIST_KEY_UIApplicationSceneManifest_Generation = YES;\n" ++
  "\t\t\t\tINFOPLIST_KEY_UIApplicationSupportsIndirectInputEvents = YES;\n" ++
  "\t\t\t\tINFOPLIST_KEY_UILaunchScreen_Generation = YES;\n" ++
  "\t\t\t\tINFOPLIST_KEY_UISupportedInterfaceOrientations_iPad = \"UIInterfaceOrientationPortrait UIInterfaceOrientationPortraitUpsideDown UIInterfaceOrientationLandscapeLeft UIInterfaceOrientationLandscapeRight\";\n" ++
  "\t\t\t\tINFOPLIST_KEY_UISupportedInterfaceOrientations_iPhone = \"UIInterfaceOrientationPortrait UIInterfaceOrientationLandscapeLeft UIInterfaceOrientationLandscapeRight\";\n" ++
  "\t\t\t\tLD_RUNPATH_SEARCH_PATHS = (\n" ++
  "\t\t\t\t\t\"$(inherited)\",\n" ++
  "\t\t\t\t\t\"@executable_path/Frameworks\",\n" ++
  "\t\t\t\t);\n" ++
  "\t\t\t\tMARKETING_VERSION = 1.0;\n" ++
  "\t\t\t\tPRODUCT_BUNDLE_IDENTIFIER = com.dueasy.app;\n" ++
  "\t\t\t\tPRODUCT_NAME = \"$(TARGET_NAME)\";\n" ++
  "\t\t\t\tSWIFT_EMIT_LOC_STRINGS = YES;\n" ++
  "\t\t\t\tSWIFT_VERSION = 5.0;\n" ++
  "\t\t\t\tTARGETED_DEVICE_FAMILY = \"1,2\";\n" ++
  "\t\t\t\x7d;\n" ++
  "\t\t\tname = Release;\n" ++
  "\t\t\x7d;\n" ++
  "/* End XCBuildConfiguration section */\n" ++
  "\n" ++
  "/* Begin XCConfigurationList section */\n" ++
  "\t\t" ++ project_config_list ++ " /* Build configuration list for PBXProject \"DuEasy\" */ = \x7b\n" ++
  "\t\t\tisa = XCConfigurationList;\n" ++
  "\t\t\tbuildConfigurations = (\n" ++
  "\t\t\t\t" ++ project_debug_config ++ " /* Debug */,\n" ++
  "\t\t\t\t" ++ project_release_config ++ " /* Release */,\n" ++
  "\t\t\t);\n" ++
  "\t\t\tdefaultConfigurationIsVisible = 0;\n" ++
  "\t\t\tdefaultConfigurationName = Release;\n" ++
  "\t\t\x7d;\n" ++
  "\t\t" ++ target_config_list ++ " /* Build configuration list for PBXNativeTarget \"DuEasy\" */ = \x7b\n" ++
  "\t\t\tisa = XCConfigurationList;\n" ++
  "\t\t\tbuildConfigurations = (\n" ++
  "\t\t\t\t" ++ target_debug_config ++ " /* Debug */,\n" ++
  "\t\t\t\t" ++ target_release_config ++ " /* Release */,\n" ++
  "\t\t\t);\n" ++
  "\t\t\tdefaultConfigurationIsVisible = 0;\n" ++
  "\t\t\tdefaultConfigurationName = Release;\n" ++
  "\t\t\x7d;\n" ++
  "/* End XCConfigurationList section */\n" ++
  "\t\x7d;\n" ++
  "\trootObject = " ++ project_id ++ " /* Project object */;\n" ++
  "\x7d\n"

/-! ## Dynamic manifest lines and assembly (src lines 79-493) -/

/-- The dynamic build-file line for one Swift source (src line 93). -/
def renderBuildFileLine (bf : BuildFile) : String :=
  "\t\t" ++ bf.build_id ++ " /* " ++ bf.filename ++ " in Sources */ = \x7bisa = PBXBuildFile; fileRef = " ++ bf.file_ref_id ++ " /* " ++ bf.filename ++ " */; \x7d;\n"

/-- The dynamic file-reference line for one Swift source (src line 107). -/
def renderFileRefLine (fr : FileRef) : String :=
  "\t\t" ++ fr.ref_id ++ " /* " ++ fr.filename ++ " */ = \x7bisa = PBXFileReference; lastKnownFileType = sourcecode.swift; path = \"" ++ fr.rel_path ++ "\"; sourceTree = SOURCE_ROOT; \x7d;\n"

/-- The dynamic DuEasy-group child line for one Swift source (src line 154). -/
def renderGroupChildLine (fr : FileRef) : String :=
  "\t\t\t\t" ++ fr.ref_id ++ " /* " ++ fr.filename ++ " */,\n"

/-- The dynamic sources-phase file line for one Swift source (src line 268). -/
def renderSourcesLine (bf : BuildFile) : String :=
  "\t\t\t\t" ++ bf.build_id ++ " /* " ++ bf.filename ++ " in Sources */,\n"

/-- The build-file section lines emitted by the loop of src lines 92-93. -/
def buildFileLines (fs : List (String × String)) : List String :=
  (mkBuildFiles fs).map renderBuildFileLine

/-- The file-reference section lines emitted by the loop of src lines 106-107. -/
def fileRefLines (fs : List (String × String)) : List String :=
  (mkFileRefs fs).map renderFileRefLine

/-- The DuEasy-group children lines emitted by the loop of src lines 153-154. -/
def groupChildLines (fs : List (String × String)) : List String :=
  (mkFileRefs fs).map renderGroupChildLine

/-- The sources-phase file lines emitted by the loop of src lines 267-268. -/
def sourcesPhaseLines (fs : List (String × String)) : List String :=
  (mkBuildFiles fs).map renderSourcesLine

/-- The manifest text as the ordered list of its concatenated pieces, static
and dynamic, exactly as `main` accumulates them into `pbxproj`
(src lines 80-486). Indices 1, 4, 8 and 10 are the dynamic sections; all
other indices are static. -/
def manifestParts (fs : List (String × String)) : List String :=
  [pbxproj_header,
   String.join (buildFileLines fs),
   resource_build_file_lines,
   end_buildfile_begin_fileref,
   String.join (fileRefLines fs),
   static_file_ref_lines,
   end_fileref_begin_frameworks,
   frameworks_and_groups_text,
   String.join (groupChildLines fs),
   group_tail_to_sources_head,
   String.join (sourcesPhaseLines fs),
   sources_tail_to_footer]

/-- The full generated `project.pbxproj` text (src lines 80-486). -/
def pbxproj_text (fs : List (String × String)) : String :=
  String.join (manifestParts fs)

/-- Models `with open(output_path, "w") as f: f.write(pbxproj)`
(src lines 488-491) once the open succeeded: opening with mode `"w"`
truncates the existing file immediately. `prev` is the prior content of the
output path, `failAfter = some k` models an I/O failure once `k` characters
of the new content were written, `none` a successful write. The result is the
content left at the output path. -/
def write_manifest (prev : Option String) (content : String) (failAfter : Option Nat) :
    Option String :=
  match failAfter with
  | none => some content
  | some k => some ⟨content.data.take k⟩

/-- The console summary printed after a successful run (src line 493). -/
def summary_line (fs : List (String × String)) : String :=
  "Generated project.pbxproj with " ++ toString fs.length ++ " Swift files"

/-! ## Auxiliary definitions used by claim statements -/

/-- The sixteen lowercase hexadecimal digits. -/
def lowerHexDigits : List Char := (List.range 16).map hexChar

/-- The sixteen uppercase hexadecimal digits. -/
def upperHexDigits : List Char :=
  ['0', '1', '2', '3', '4', '5', '6', '7', '8', '9', 'A', 'B', 'C', 'D', 'E', 'F']

/-- The `/`-separated segments of a path string, used to state that the
exclusion test is not segment-based. -/
def pathSegments (s : String) : List String :=
  (s.data.foldr (fun c acc =>
    if c = '/' then [] :: acc
    else
      match acc with
      | [] => [[c]]
      | h :: t => (c :: h) :: t) [[]]).map fun l => ⟨l⟩

/-- Strict comparison on the relative-path sort key. -/
def pathLT (a b : String × String) : Prop := a.2 < b.2

instance : IsTotal (String × String) pathLE := ⟨fun a b => le_total a.2 b.2⟩

instance : IsTrans (String × String) pathLE := ⟨fun _ _ _ h1 h2 => le_trans h1 h2⟩

instance : IsAntisymm (String × String) pathLT := ⟨fun _ _ h1 h2 => (lt_asymm h1 h2).elim⟩

/-! ## Helper lemmas -/

lemma md5_digest_length (msg : List Nat) : (md5_digest msg).length = 16 := by
  simp [md5_digest, wordLEBytes]

lemma hexdigestChars_length (bytes : List Nat) :
    (hexdigestChars bytes).length = 2 * bytes.length := by
  induction bytes with
  | nil => simp [hexdigestChars]
  | cons b bs ih => simp [hexdigestChars] at ih ⊢; omega

lemma hexChar_mem_lower {n : Nat} (h : n < 16) : hexChar n ∈ lowerHexDigits :=
  List.mem_map.mpr ⟨n, List.mem_range.mpr h, rfl⟩

lemma toUpper_mem_upper {c : Char} (h : c ∈ lowerHexDigits) :
    Char.toUpper c ∈ upperHexDigits := by
  rcases List.mem_map.mp h with ⟨n, hn, rfl⟩
  have hlt : n < 16 := List.mem_range.mp hn
  interval_cases n <;> decide

lemma wordLEBytes_lt {b w : Nat} (h : b ∈ wordLEBytes w) : b < 256 := by
  simp only [wordLEBytes, List.mem_cons, List.not_mem_nil, or_false] at h
  rcases h with rfl | rfl | rfl | rfl <;> exact Nat.mod_lt _ (by omega)

lemma md5_digest_lt (msg : List Nat) : ∀ b ∈ md5_digest msg, b < 256 := by
  intro b hb
  simp only [md5_digest, List.mem_append] at hb
  rcases hb with ((h | h) | h) | h <;> exact wordLEBytes_lt h

lemma mem_hexdigestChars {c : Char} {bytes : List Nat} (hbound : ∀ b ∈ bytes, b < 256)
    (h : c ∈ hexdigestChars bytes) : c ∈ lowerHexDigits := by
  rcases List.mem_flatMap.mp h with ⟨b, hb, hc⟩
  have hblt : b < 256 := hbound b hb
  simp only [List.mem_cons, List.not_mem_nil, or_false] at hc
  rcases hc with rfl | rfl
  · exact hexChar_mem_lower (Nat.div_lt_of_lt_mul (by omega))
  · exact hexChar_mem_lower (Nat.mod_lt _ (by omega))

/-! ## Claim theorems -/

/-- C4: identifier derivation is a pure function of the key: for every key it
returns a 24-character string all of whose characters are uppercase
hexadecimal digits, and two calls with the same key return the same string. -/
theorem C4_generate_uuid_format (name : String) :
    (generate_uuid name).length = 24 ∧
    (∀ c ∈ (generate_uuid name).data, c ∈ upperHexDigits) ∧
    generate_uuid name = generate_uuid name := by
  refine ⟨?_, ?_, rfl⟩
  · show (((hexdigestChars (md5_digest (strBytes name))).take 24).map Char.toUpper).length = 24
    rw [List.length_map, List.length_take, hexdigestChars_length, md5_digest_length]
    omega
  · intro c hc
    have hc' : c ∈ ((hexdigestChars (md5_digest (strBytes name))).take 24).map Char.toUpper := hc
    rcases List.mem_map.mp hc' with ⟨c', hmem, rfl⟩
    exact toUpper_mem_upper
      (mem_hexdigestChars (md5_digest_lt _) (List.take_subset _ _ hmem))

/-- C1: for a discovered list of N files, the build-file section, the
file-reference section, the group children list and the sources-phase file
list each have exactly N dynamic entries, and entry by entry the build-file's
`fileRef` field equals the corresponding file-reference's identifier. -/
theorem C1_four_lists_in_sync (fs : List (String × String)) :
    (buildFileLines fs).length = fs.length ∧
    (fileRefLines fs).length = fs.length ∧
    (groupChildLines fs).length = fs.length ∧
    (sourcesPhaseLines fs).length = fs.length ∧
    List.Forall₂ (fun bf fr => bf.file_ref_id = fr.ref_id)
      (mkBuildFiles fs) (mkFileRefs fs) := by
  refine ⟨by simp [buildFileLines, mkBuildFiles], by simp [fileRefLines, mkFileRefs],
    by simp [groupChildLines, mkFileRefs], by simp [sourcesPhaseLines, mkBuildFiles], ?_⟩
  unfold mkBuildFiles mkFileRefs
  induction fs with
  | nil => exact List.Forall₂.nil
  | cons p ps ih => exact List.Forall₂.cons rfl ih

lemma strContainsSub_of_shape (sub p q : String) :
    strContainsSub sub (p ++ sub ++ q) = true := by
  unfold strContainsSub
  rw [List.any_eq_true]
  refine ⟨p.data.length, List.mem_range.mpr ?_, ?_⟩
  · simp only [String.data_append, List.length_append]
    omega
  · simp [String.data_append, List.append_assoc, List.drop_left, List.take_left]

lemma mem_collectSwiftPairs {base : String} {walk : List (String × List String)}
    {f r : String} (h : (f, r) ∈ collectSwiftPairs base walk) :
    ∃ root files, (root, files) ∈ walk ∧
      strContainsSub "Preview Content" root = false ∧
      f ∈ files ∧ strEndsWith f ".swift" = true ∧
      r = relpath (root ++ "/" ++ f) base := by
  rcases List.mem_flatMap.mp h with ⟨e, he, hmem⟩
  by_cases hex : strContainsSub "Preview Content" e.1 = true
  · rw [if_pos hex] at hmem
    cases hmem
  · rw [if_neg hex] at hmem
    rcases List.mem_map.mp hmem with ⟨f', hf', heq⟩
    rcases List.mem_filter.mp hf' with ⟨hmemf, hends⟩
    injection heq with h1 h2
    subst h1
    subst h2
    simp only [Bool.not_eq_true] at hex
    exact ⟨e.1, e.2, by simpa using he, hex, hmemf, hends, rfl⟩

lemma mkFileRefs_map_rel_path (fs : List (String × String)) :
    (mkFileRefs fs).map FileRef.rel_path = fs.map Prod.snd := by
  induction fs with
  | nil => rfl
  | cons p ps ih => simp [mkFileRefs]

/-- C5: the discovered list is sorted in ascending lexicographic order of
relative path, and the file-reference section lists its entries in that same
ascending order of their `path` fields. -/
theorem C5_sorted_order (base : String) (walk : List (String × List String)) :
    List.Pairwise pathLE (get_swift_files base walk) ∧
    (mkFileRefs (get_swift_files base walk)).map FileRef.rel_path
      = (get_swift_files base walk).map Prod.snd ∧
    List.Pairwise (· ≤ ·)
      ((mkFileRefs (get_swift_files base walk)).map FileRef.rel_path) := by
  have hs : List.Pairwise pathLE (get_swift_files base walk) :=
    List.sorted_insertionSort pathLE _
  refine ⟨hs, mkFileRefs_map_rel_path _, ?_⟩
  rw [mkFileRefs_map_rel_path _]
  exact List.pairwise_map.mpr hs

/-- C6: every file in the discovery result comes from a directory whose path
does not contain "Preview Content"; in particular no directory lying under a
"Preview Content" folder, at any nesting depth (any root of the form
`p ++ "Preview Content" ++ q`), contributes a file. -/
theorem C6_preview_content_excluded (base : String) (walk : List (String × List String))
    (f r : String) (h : (f, r) ∈ get_swift_files base walk) :
    ∃ root files, (root, files) ∈ walk ∧ f ∈ files ∧ strEndsWith f ".swift" = true ∧
      r = relpath (root ++ "/" ++ f) base ∧
      strContainsSub "Preview Content" root = false ∧
      ∀ p q, root ≠ p ++ "Preview Content" ++ q := by
  have h' : (f, r) ∈ collectSwiftPairs base walk := by
    simpa [get_swift_files] using h
  rcases mem_collectSwiftPairs h' with ⟨root, files, hw, hex, hf, hends, hr⟩
  refine ⟨root, files, hw, hf, hends, hr, hex, fun p q hshape => ?_⟩
  rw [hshape, strContainsSub_of_shape] at hex
  cases hex

/-- C6 witness: the characterization applied to a concrete one-file tree. -/
theorem C6_preview_content_excluded_witness :
    ("App.swift", "DuEasy/App.swift") ∈
        get_swift_files base_dir [(base_dir ++ "/DuEasy", ["App.swift"])] ∧
    (∃ root files,
      (root, files) ∈ [(base_dir ++ "/DuEasy", ["App.swift"])] ∧ "App.swift" ∈ files ∧
      strEndsWith "App.swift" ".swift" = true ∧
      "DuEasy/App.swift" = relpath (root ++ "/" ++ "App.swift") base_dir ∧
      strContainsSub "Preview Content" root = false ∧
      ∀ p q, root ≠ p ++ "Preview Content" ++ q) := by
  have hmem : ("App.swift", "DuEasy/App.swift") ∈
      get_swift_files base_dir [(base_dir ++ "/DuEasy", ["App.swift"])] := by decide
  exact ⟨hmem, C6_preview_content_excluded base_dir _ _ _ hmem⟩

/-- C10: exclusion is decided by substring containment on the directory path:
any walk entry whose root contains "Preview Content" anywhere as a substring
contributes nothing to discovery, even when — as for the directory
`DuEasy/My Preview Contents` — no path segment equals "Preview Content". -/
theorem C10_substring_exclusion :
    (∀ (base : String) (walk1 walk2 : List (String × List String)) (root : String)
        (files : List String),
      strContainsSub "Preview Content" root = true →
        get_swift_files base (walk1 ++ (root, files) :: walk2)
          = get_swift_files base (walk1 ++ walk2)) ∧
    strContainsSub "Preview Content" (base_dir ++ "/DuEasy/My Preview Contents") = true ∧
    (∀ seg ∈ pathSegments "DuEasy/My Preview Contents", seg ≠ "Preview Content") := by
  refine ⟨?_, by decide, by decide⟩
  intro base w1 w2 root files hex
  unfold get_swift_files
  congr 1
  unfold collectSwiftPairs
  rw [List.flatMap_append, List.flatMap_append, List.flatMap_cons]
  simp [hex]

/-- C10 witness: a directory named `My Preview Contents` is excluded. -/
theorem C10_substring_exclusion_witness :
    strContainsSub "Preview Content" (base_dir ++ "/DuEasy/My Preview Contents") = true ∧
    get_swift_files base_dir
        ([] ++ (base_dir ++ "/DuEasy/My Preview Contents", ["Hidden.swift"]) :: [])
      = get_swift_files base_dir ([] ++ []) := by
  have hex : strContainsSub "Preview Content" (base_dir ++ "/DuEasy/My Preview Contents")
      = true := by decide
  exact ⟨hex, C10_substring_exclusion.1 base_dir [] [] _ ["Hidden.swift"] hex⟩

/-- C7: the generator is deterministic and independent of the filesystem
enumeration order: two walks of the same unchanged tree (permutations of the
same entries, with the collected relative paths pairwise distinct, as paths of
distinct files are) yield the same discovery result and byte-identical
manifest text. -/
theorem C7_deterministic (base : String) (walk1 walk2 : List (String × List String))
    (hperm : walk1.Perm walk2)
    (hdistinct : (collectSwiftPairs base walk1).Pairwise fun a b => a.2 ≠ b.2) :
    get_swift_files base walk1 = get_swift_files base walk2 ∧
    pbxproj_text (get_swift_files base walk1)
      = pbxproj_text (get_swift_files base walk2) := by
  have hsymm : ∀ {x y : String × String}, x.2 ≠ y.2 → y.2 ≠ x.2 := fun h => Ne.symm h
  have hc : (collectSwiftPairs base walk1).Perm (collectSwiftPairs base walk2) := by
    unfold collectSwiftPairs
    exact hperm.flatMap_right _
  have hp1 : (get_swift_files base walk1).Perm (collectSwiftPairs base walk1) :=
    List.perm_insertionSort pathLE _
  have hp2 : (get_swift_files base walk2).Perm (collectSwiftPairs base walk2) :=
    List.perm_insertionSort pathLE _
  have hd1 : (get_swift_files base walk1).Pairwise fun a b => a.2 ≠ b.2 :=
    hp1.symm.pairwise hdistinct hsymm
  have hd2 : (get_swift_files base walk2).Pairwise fun a b => a.2 ≠ b.2 :=
    (hc.trans hp2.symm).pairwise hdistinct hsymm
  have hs1 : List.Pairwise pathLE (get_swift_files base walk1) :=
    List.sorted_insertionSort pathLE _
  have hs2 : List.Pairwise pathLE (get_swift_files base walk2) :=
    List.sorted_insertionSort pathLE _
  have hlt1 : List.Pairwise pathLT (get_swift_files base walk1) :=
    (hs1.and hd1).imp fun h => lt_of_le_of_ne h.1 h.2
  have hlt2 : List.Pairwise pathLT (get_swift_files base walk2) :=
    (hs2.and hd2).imp fun h => lt_of_le_of_ne h.1 h.2
  have hperm12 : (get_swift_files base walk1).Perm (get_swift_files base walk2) :=
    hp1.trans (hc.trans hp2.symm)
  have heq : get_swift_files base walk1 = get_swift_files base walk2 :=
    List.eq_of_perm_of_sorted hperm12 hlt1 hlt2
  exact ⟨heq, by rw [heq]⟩

/-- C7 witness: two enumeration orders of the same two-directory tree produce
byte-identical manifest text. -/
theorem C7_deterministic_witness :
    List.Perm
      [(base_dir ++ "/DuEasy", ["A.swift"]), (base_dir ++ "/DuEasy/Views", ["B.swift"])]
      [(base_dir ++ "/DuEasy/Views", ["B.swift"]), (base_dir ++ "/DuEasy", ["A.swift"])] ∧
    (collectSwiftPairs base_dir
        [(base_dir ++ "/DuEasy", ["A.swift"]),
         (base_dir ++ "/DuEasy/Views", ["B.swift"])]).Pairwise
      (fun a b => a.2 ≠ b.2) ∧
    pbxproj_text (get_swift_files base_dir
        [(base_dir ++ "/DuEasy", ["A.swift"]), (base_dir ++ "/DuEasy/Views", ["B.swift"])])
      = pbxproj_text (get_swift_files base_dir
        [(base_dir ++ "/DuEasy/Views", ["B.swift"]), (base_dir ++ "/DuEasy", ["A.swift"])]) := by
  have h1 : List.Perm
      [(base_dir ++ "/DuEasy", ["A.swift"]), (base_dir ++ "/DuEasy/Views", ["B.swift"])]
      [(base_dir ++ "/DuEasy/Views", ["B.swift"]), (base_dir ++ "/DuEasy", ["A.swift"])] := by
    decide
  have h2 : (collectSwiftPairs base_dir
      [(base_dir ++ "/DuEasy", ["A.swift"]),
       (base_dir ++ "/DuEasy/Views", ["B.swift"])]).Pairwise
      (fun a b => a.2 ≠ b.2) := by decide
  exact ⟨h1, h2, (C7_deterministic base_dir _ _ h1 h2).2⟩

/-- C2 counterexample: on a missing base or `DuEasy` subdirectory, discovery
does not fail: it returns an empty list, indistinguishable from the result on
an existing directory with no matching files. -/
theorem C2_missing_dir_counterexample :
    get_swift_files_run base_dir none = Except.ok [] ∧
    get_swift_files_run base_dir none = get_swift_files_run base_dir (some []) :=
  ⟨rfl, rfl⟩

/-- C2 amended: if the base directory or the fixed source subdirectory does
not exist, file discovery silently returns an empty list (`os.walk` yields no
entries and raises nothing), so "no matching files" is not distinguished from
"directory missing". -/
theorem C2_missing_dir_silent (base : String) :
    get_swift_files_run base none = Except.ok [] ∧
    get_swift_files_run base none = get_swift_files_run base (some []) :=
  ⟨rfl, rfl⟩

/-- C3 counterexample: a write that fails immediately after the successful
open leaves an empty file, not the previous manifest. -/
theorem C3_write_counterexample :
    write_manifest (some "old manifest") "new manifest" (some 0) ≠ some "old manifest" := by
  decide

/-- C3 amended: the write is not all-or-nothing: the code opens the output
path directly in `"w"` mode, which truncates the file at once, so a failure
after `k` characters leaves exactly the first `k` characters of the new
content; the previous manifest is destroyed regardless of its value, and only
a fully successful write leaves the complete new content. -/
theorem C3_truncating_write (prev : Option String) (content : String) (k : Nat) :
    write_manifest prev content none = some content ∧
    write_manifest prev content (some k) = some ⟨content.data.take k⟩ ∧
    write_manifest prev content (some k) = write_manifest none content (some k) :=
  ⟨rfl, rfl, rfl⟩

/-- C8: the console summary reports exactly the length of the discovered
list; with zero matching files the run still produces a manifest whose four
dynamic sections are empty, and the summary reports zero files. -/
theorem C8_summary (base : String) (walk : List (String × List String)) :
    summary_line (get_swift_files base walk)
      = "Generated project.pbxproj with "
        ++ toString (get_swift_files base walk).length ++ " Swift files" ∧
    (get_swift_files base walk = [] →
      buildFileLines (get_swift_files base walk) = [] ∧
      fileRefLines (get_swift_files base walk) = [] ∧
      groupChildLines (get_swift_files base walk) = [] ∧
      sourcesPhaseLines (get_swift_files base walk) = [] ∧
      summary_line (get_swift_files base walk)
        = "Generated project.pbxproj with 0 Swift files") := by
  refine ⟨rfl, fun h => ?_⟩
  rw [h]
  exact ⟨rfl, rfl, rfl, rfl, rfl⟩

/-- C8 witness: the empty walk gives an empty discovery list, empty dynamic
sections and a zero-file summary. -/
theorem C8_summary_witness :
    get_swift_files base_dir [] = [] ∧
    buildFileLines (get_swift_files base_dir []) = [] ∧
    summary_line (get_swift_files base_dir [])
      = "Generated project.pbxproj with 0 Swift files" := by
  have h : get_swift_files base_dir [] = [] := rfl
  have hc := (C8_summary base_dir []).2 h
  exact ⟨h, hc.1, hc.2.2.2.2⟩

/-- C9: the static structural content of the manifest — the header (part 0),
the fixed resource build-file entries (2), the section breaks (3, 6), the
fixed file references for the app product, asset catalogs, Info.plist and
localization (5), the frameworks phase and fixed group nodes (7), the fixed
group tails, variant group, native target, project object and resources
phase (9), and the debug/release configuration blocks with the footer (11) —
is identical for any two discovered file lists. -/
theorem C9_static_sections (fs1 fs2 : List (String × String)) :
    (manifestParts fs1).getD 0 "" = (manifestParts fs2).getD 0 "" ∧
    (manifestParts fs1).getD 2 "" = (manifestParts fs2).getD 2 "" ∧
    (manifestParts fs1).getD 3 "" = (manifestParts fs2).getD 3 "" ∧
    (manifestParts fs1).getD 5 "" = (manifestParts fs2).getD 5 "" ∧
    (manifestParts fs1).getD 6 "" = (manifestParts fs2).getD 6 "" ∧
    (manifestParts fs1).getD 7 "" = (manifestParts fs2).getD 7 "" ∧
    (manifestParts fs1).getD 9 "" = (manifestParts fs2).getD 9 "" ∧
    (manifestParts fs1).getD 11 "" = (manifestParts fs2).getD 11 "" :=
  ⟨rfl, rfl, rfl, rfl, rfl, rfl, rfl, rfl⟩
